import Mathlib

/-!
Verification of the `st-trace` utility (`src/st-trace/trace.c`).

This file gives a shallow embedding of the pure core of the program:

* the CoreSight trace-packet decoder (`UpdateTraceIdle`, `UpdateTrace` and the
  driver loop of `ReadTrace`), with side effects (`putchar`, `WLOG`) made
  explicit as an event list;
* the once-per-session diagnostics heuristic (`CheckForConfigurationError`)
  and the poll loop of `main` that invokes it;
* the serial-number hex-pair decoder (`ConvertSerialNumberTextToBinary`);
* the clock-prescaler section of `EnableTrace`;
* the exit-path structure of `main` after a probe handle has been opened.

Machine integers are modelled as `Nat` with explicit reduction modulo `2^32`
where the C code uses `uint32_t`.  The 256-entry `uint8_t unknown_opcodes[32]`
bitset is modelled as a single natural number whose bit `c` is the C bit
`unknown_opcodes[c / 8] & (1 << c % 8)`.
-/

/-- Reduction modulo 2^32, the semantics of storing into a `uint32_t`. -/
def u32 (n : Nat) : Nat := n % 4294967296

/-- Conversion of a (possibly negative) integer to `uint32_t`. -/
def u32ofInt (x : Int) : Nat := (x % (4294967296 : Int)).toNat

/-- The parser states of the trace decoder (`trace_state` in trace.c). -/
inductive trace_state where
  | TRACE_STATE_IDLE
  | TRACE_STATE_TARGET_SOURCE
  | TRACE_STATE_SKIP_FRAME
  | TRACE_STATE_SKIP_4
  | TRACE_STATE_SKIP_3
  | TRACE_STATE_SKIP_2
  | TRACE_STATE_SKIP_1
deriving DecidableEq

/-- Observable side effects of one decoder step: a byte written to stdout by
`putchar`, or one of the two `WLOG` warnings of `UpdateTraceIdle`. -/
inductive TraceEvent where
  | putchar (c : Nat)
  | wlog_unknown_source (addr : Nat) (size : Nat)
  | wlog_unknown_opcode (c : Nat)
deriving DecidableEq

/-- The decoder session state (`st_trace_t` in trace.c). -/
structure st_trace_t where
  start_time : Nat
  configuration_checked : Bool
  state : trace_state
  count_raw_bytes : Nat
  count_target_data : Nat
  count_time_packets : Nat
  count_overflow : Nat
  count_error : Nat
  unknown_opcodes : Nat
  unknown_sources : Nat
deriving DecidableEq

/-- C macro `#define TRACE_OP_IS_OVERFLOW(c) ((c) == 0x70)` -/
def TRACE_OP_IS_OVERFLOW (c : Nat) : Bool := c == 0x70

/-- C macro `#define TRACE_OP_IS_LOCAL_TIME(c) (((c) & 0x0f) == 0x00 && ((c) & 0x70) != 0x00)` -/
def TRACE_OP_IS_LOCAL_TIME (c : Nat) : Bool :=
  (c &&& 0x0f == 0x00) && (c &&& 0x70 != 0x00)

/-- C macro `#define TRACE_OP_IS_EXTENSION(c) (((c) & 0x0b) == 0x08)` -/
def TRACE_OP_IS_EXTENSION (c : Nat) : Bool := c &&& 0x0b == 0x08

/-- C macro `#define TRACE_OP_IS_GLOBAL_TIME(c) (((c) & 0xdf) == 0x94)` -/
def TRACE_OP_IS_GLOBAL_TIME (c : Nat) : Bool := c &&& 0xdf == 0x94

/-- C macro `#define TRACE_OP_IS_SOURCE(c) (((c) & 0x03) != 0x00)` -/
def TRACE_OP_IS_SOURCE (c : Nat) : Bool := c &&& 0x03 != 0x00

/-- C macro `#define TRACE_OP_IS_SW_SOURCE(c) (((c) & 0x03) != 0x00 && ((c) & 0x04) == 0x00)` -/
def TRACE_OP_IS_SW_SOURCE (c : Nat) : Bool :=
  (c &&& 0x03 != 0x00) && (c &&& 0x04 == 0x00)

/-- C macro `#define TRACE_OP_IS_TARGET_SOURCE(c) ((c) == 0x01)` -/
def TRACE_OP_IS_TARGET_SOURCE (c : Nat) : Bool := c == 0x01

/-- C macro `#define TRACE_OP_GET_CONTINUATION(c) ((c) & 0x80)` -/
def TRACE_OP_GET_CONTINUATION (c : Nat) : Nat := c &&& 0x80

/-- C macro `#define TRACE_OP_GET_SOURCE_SIZE(c) ((c) & 0x03)` -/
def TRACE_OP_GET_SOURCE_SIZE (c : Nat) : Nat := c &&& 0x03

/-- C macro `#define TRACE_OP_GET_SW_SOURCE_ADDR(c) ((c) >> 3)` -/
def TRACE_OP_GET_SW_SOURCE_ADDR (c : Nat) : Nat := c >>> 3

/-- Lines 350-366 of `UpdateTraceIdle`: the code reached after the
target-source test has failed and the source block (if entered) has fallen
through: timestamp headers, extension headers, the overflow test and the
unknown-opcode accounting.  Returns the updated session state, the returned
`trace_state`, and the emitted log events. -/
def UpdateTraceIdleRest (trace : st_trace_t) (c : Nat) :
    st_trace_t × trace_state × List TraceEvent :=
  if TRACE_OP_IS_LOCAL_TIME c || TRACE_OP_IS_GLOBAL_TIME c then
    ({ trace with count_time_packets := u32 (trace.count_time_packets + 1) },
     if TRACE_OP_GET_CONTINUATION c != 0 then trace_state.TRACE_STATE_SKIP_FRAME
      else trace_state.TRACE_STATE_IDLE, [])
  else if TRACE_OP_IS_EXTENSION c then
    (trace,
     if TRACE_OP_GET_CONTINUATION c != 0 then trace_state.TRACE_STATE_SKIP_FRAME
      else trace_state.TRACE_STATE_IDLE, [])
  else
    let trace :=
      if TRACE_OP_IS_OVERFLOW c then
        { trace with count_overflow := u32 (trace.count_overflow + 1) }
      else trace
    let evs :=
      if trace.unknown_opcodes &&& (1 <<< c) == 0 then
        [TraceEvent.wlog_unknown_opcode c]
      else []
    let trace := { trace with unknown_opcodes := trace.unknown_opcodes ||| (1 <<< c) }
    let trace := { trace with count_error := u32 (trace.count_error + 1) }
    (trace,
     if TRACE_OP_GET_CONTINUATION c != 0 then trace_state.TRACE_STATE_SKIP_FRAME
      else trace_state.TRACE_STATE_IDLE, evs)

/-- Function `UpdateTraceIdle` (lines 334-367 of trace.c).  The C source block does not
return when the size code is outside 1..3 (impossible under
`TRACE_OP_IS_SOURCE`); that fall-through, with the software-source bookkeeping
already applied, is preserved here. -/
def UpdateTraceIdle (trace : st_trace_t) (c : Nat) :
    st_trace_t × trace_state × List TraceEvent :=
  if TRACE_OP_IS_TARGET_SOURCE c then
    (trace, trace_state.TRACE_STATE_TARGET_SOURCE, [])
  else if TRACE_OP_IS_SOURCE c then
    let size := TRACE_OP_GET_SOURCE_SIZE c
    let pr : st_trace_t × List TraceEvent :=
      if TRACE_OP_IS_SW_SOURCE c then
        let addr := TRACE_OP_GET_SW_SOURCE_ADDR c
        let evs :=
          if trace.unknown_sources &&& (1 <<< addr) == 0 then
            [TraceEvent.wlog_unknown_source addr size]
          else []
        ({ trace with unknown_sources := trace.unknown_sources ||| (1 <<< addr) }, evs)
      else (trace, [])
    if size == 1 then (pr.1, trace_state.TRACE_STATE_SKIP_1, pr.2)
    else if size == 2 then (pr.1, trace_state.TRACE_STATE_SKIP_2, pr.2)
    else if size == 3 then (pr.1, trace_state.TRACE_STATE_SKIP_4, pr.2)
    else
      let r := UpdateTraceIdleRest pr.1 c
      (r.1, r.2.1, pr.2 ++ r.2.2)
  else
    UpdateTraceIdleRest trace c

/-- Function `UpdateTrace` (lines 369-404 of trace.c): increments the raw-byte counter
and dispatches on the current parser state. -/
def UpdateTrace (trace : st_trace_t) (c : Nat) :
    st_trace_t × trace_state × List TraceEvent :=
  let trace := { trace with count_raw_bytes := u32 (trace.count_raw_bytes + 1) }
  match trace.state with
  | trace_state.TRACE_STATE_IDLE => UpdateTraceIdle trace c
  | trace_state.TRACE_STATE_TARGET_SOURCE =>
      ({ trace with count_target_data := u32 (trace.count_target_data + 1) },
       trace_state.TRACE_STATE_IDLE, [TraceEvent.putchar c])
  | trace_state.TRACE_STATE_SKIP_FRAME =>
      (trace,
       if TRACE_OP_GET_CONTINUATION c != 0 then trace_state.TRACE_STATE_SKIP_FRAME
        else trace_state.TRACE_STATE_IDLE, [])
  | trace_state.TRACE_STATE_SKIP_4 => (trace, trace_state.TRACE_STATE_SKIP_3, [])
  | trace_state.TRACE_STATE_SKIP_3 => (trace, trace_state.TRACE_STATE_SKIP_2, [])
  | trace_state.TRACE_STATE_SKIP_2 => (trace, trace_state.TRACE_STATE_SKIP_1, [])
  | trace_state.TRACE_STATE_SKIP_1 => (trace, trace_state.TRACE_STATE_IDLE, [])

/-- One iteration of the feeding loop of `ReadTrace` (line 421):
`trace->state = UpdateTrace(trace, buffer[i])`. -/
def stepTrace (trace : st_trace_t) (c : Nat) : st_trace_t × List TraceEvent :=
  let r := UpdateTrace trace c
  ({ r.1 with state := r.2.1 }, r.2.2)

/-- Feeding a whole byte sequence to the decoder, collecting events in order. -/
def processBytes (trace : st_trace_t) : List Nat → st_trace_t × List TraceEvent
  | [] => (trace, [])
  | c :: rest =>
    let r := stepTrace trace c
    let r' := processBytes r.1 rest
    (r'.1, r.2 ++ r'.2)

/-- The zero-initialised session state of `main` (line 530,
`st_trace_t trace = {};` followed by `trace.start_time = time(NULL);`).
The first enumerator `TRACE_STATE_IDLE` has value 0. -/
def initTrace (start_time : Nat) : st_trace_t :=
  { start_time := start_time
    configuration_checked := false
    state := trace_state.TRACE_STATE_IDLE
    count_raw_bytes := 0
    count_target_data := 0
    count_time_packets := 0
    count_overflow := 0
    count_error := 0
    unknown_opcodes := 0
    unknown_sources := 0 }

/-- The bytes written to the primary output stream by a list of events. -/
def outputBytes (evs : List TraceEvent) : List Nat :=
  evs.filterMap fun e =>
    match e with
    | TraceEvent.putchar c => some c
    | _ => none

/-- Number of unknown-opcode warnings for value `v` in an event list. -/
def opcodeLogCount (v : Nat) (evs : List TraceEvent) : Nat :=
  evs.countP fun e =>
    match e with
    | TraceEvent.wlog_unknown_opcode c => c == v
    | _ => false

/-- Number of unsupported-source warnings for address `a` in an event list. -/
def sourceLogCount (a : Nat) (evs : List TraceEvent) : Nat :=
  evs.countP fun e =>
    match e with
    | TraceEvent.wlog_unknown_source addr _ => addr == a
    | _ => false

/-- Header bytes of a well-formed target-output packet stream: each payload
byte is preceded by the header `0x01` (the byte satisfying
`TRACE_OP_IS_TARGET_SOURCE`: software source, address 0, size code 1). -/
def encodeTargetPackets : List Nat → List Nat
  | [] => []
  | b :: rest => 0x01 :: b :: encodeTargetPackets rest

/-- Function `CheckForConfigurationError` (lines 427-455 of trace.c).  `now` is the
value of `time(NULL)`; `elapsed_time_s` is the `uint32_t` value of the
signed `time_t` difference.  Returns the updated session state, whether the
one-shot counter check ran, and whether the misconfiguration diagnostics
were reported. -/
def CheckForConfigurationError (trace : st_trace_t) (now : Nat) :
    st_trace_t × Bool × Bool :=
  let elapsed_time_s := u32ofInt ((now : Int) - (trace.start_time : Int))
  if trace.configuration_checked || decide (elapsed_time_s < 10) then
    (trace, false, false)
  else
    let trace := { trace with configuration_checked := true }
    if decide (trace.count_raw_bytes < 100) || decide (trace.count_error > 1)
        || decide (trace.count_time_packets < 10) then
      (trace, true, true)
    else
      (trace, true, false)

/-- One iteration of the poll loop of `main` (lines 532-534): the bytes
returned by `stlink_trace_read` this iteration, and the wall-clock time at
which `CheckForConfigurationError` then runs. -/
structure PollStep where
  now : Nat
  bytes : List Nat
deriving DecidableEq

/-- What one poll-loop iteration did: the time of the iteration, whether the
heuristic ran its counter checks, and whether it reported diagnostics. -/
structure PollResult where
  now : Nat
  checked : Bool
  reported : Bool
deriving DecidableEq

/-- The poll loop of `main`: each iteration feeds the bytes read from the
probe to the decoder (`ReadTrace`) and then calls
`CheckForConfigurationError`. -/
def runSession (trace : st_trace_t) : List PollStep → st_trace_t × List PollResult
  | [] => (trace, [])
  | p :: rest =>
    let t1 := (processBytes trace p.bytes).1
    let r := CheckForConfigurationError t1 p.now
    let r' := runSession r.1 rest
    (r'.1, { now := p.now, checked := r.2.1, reported := r.2.2 } :: r'.2)

/-- Predicate `isspace` of the C locale, on ASCII codes. -/
def c_isspace (c : Nat) : Bool := c == 32 || (9 ≤ c && c ≤ 13)

/-- Value of an ASCII hexadecimal digit, if it is one. -/
def hexDigitVal (c : Nat) : Option Nat :=
  if 48 ≤ c ∧ c ≤ 57 then some (c - 48)
  else if 97 ≤ c ∧ c ≤ 102 then some (c - 87)
  else if 65 ≤ c ∧ c ≤ 70 then some (c - 55)
  else none

/-- The maximal hexadecimal-digit prefix of a character list, folded into a
number (the digit-consuming loop of `strtol`). -/
def hexFoldAux (acc : Nat) : List Nat → Nat
  | [] => acc
  | c :: rest =>
    match hexDigitVal c with
    | some d => hexFoldAux (acc * 16 + d) rest
    | none => acc

/-- Model of `strtol(buffer, NULL, 16)` on a NUL-terminated character list: truncate at
the first NUL, skip leading whitespace, read an optional sign and an optional
`0x`/`0X` prefix, then fold the maximal run of hex digits (no conversion
yields 0, as `strtol` returns 0). -/
def strtol16 (s : List Nat) : Int :=
  let s := s.takeWhile (fun c => c != 0)
  let s := s.dropWhile c_isspace
  let sign : Int := if s.headD 0 == 45 then -1 else 1
  let s := if s.headD 0 == 45 || s.headD 0 == 43 then s.tail else s
  let s :=
    match s with
    | 48 :: x :: rest => if x == 120 || x == 88 then rest else 48 :: x :: rest
    | _ => s
  sign * (hexFoldAux 0 s : Int)

/-- The loop of `ConvertSerialNumberTextToBinary` (lines 237-241).  The first
argument is the text suffix starting at the read cursor `n` (the loop runs
while `n < strlen(text)`, i.e. while the suffix is nonempty); `acc` holds the
bytes written so far, so `acc.length` is the C variable `length`.  Each
iteration copies two characters starting at index `n` — for an odd trailing
character the second copied byte is the NUL terminator, hence the `[c, 0]`
buffer — parses them with `strtol` base 16, and stores the `uint8_t`
truncation of the result. -/
def ConvertSerialLoop (maxSize : Nat) : List Nat → List Nat → List Nat
  | [], acc => acc
  | [c], acc =>
    if acc.length < maxSize then acc ++ [u32ofInt (strtol16 [c, 0] % 256)] else acc
  | c1 :: c2 :: rest, acc =>
    if acc.length < maxSize then
      ConvertSerialLoop maxSize rest (acc ++ [u32ofInt (strtol16 [c1, c2] % 256)])
    else acc

/-- Function `ConvertSerialNumberTextToBinary` (lines 235-242 of trace.c).  The
destination capacity `STLINK_SERIAL_MAX_SIZE` is declared in the external
probe-driver header `stlink.h`, outside this repository, so it is taken here
as the parameter `maxSize`; `text` is the NUL-free body of the argument C
string.  The result lists the bytes written to `binary_out`, in order. -/
def ConvertSerialNumberTextToBinary (maxSize : Nat) (text : List Nat) : List Nat :=
  ConvertSerialLoop maxSize text []

/-- Result of the clock-prescaler section of `EnableTrace`:
the value written to `TPI_ACPR` (if any), the system-clock MHz figure
reported by `ILOG` (if any), and whether the not-configured warning ran. -/
structure ClockConfigResult where
  written_prescaler : Option Nat
  reported_clock_mhz : Option Nat
  warned_unconfigured : Bool
deriving DecidableEq

/-- Lines 304-317 of `EnableTrace`.  `core_frequency_mhz` is the settings
value; `trace_frequency` is the external constant `STLINK_TRACE_FREQUENCY`
from `stlink.h`, taken as a parameter; `acpr_readback` is the value the
`Read32(stlink, TPI_ACPR)` transaction returns (device state, external).
The C arithmetic `core_frequency_mhz * 1000000 / STLINK_TRACE_FREQUENCY - 1`
runs in `int` and is converted to `uint32_t` when passed to `Write32`;
the readback arithmetic runs in `uint32_t`. -/
def EnableTraceClock (core_frequency_mhz trace_frequency acpr_readback : Nat) :
    ClockConfigResult :=
  let written :=
    if core_frequency_mhz != 0 then
      some (u32ofInt ((core_frequency_mhz * 1000000 / trace_frequency : Int) - 1))
    else none
  let prescaler := acpr_readback
  if prescaler != 0 then
    let system_clock_speed := u32 ((prescaler + 1) * trace_frequency)
    let system_clock_speed_mhz := u32 (system_clock_speed + 500000) / 1000000
    { written_prescaler := written
      reported_clock_mhz := some system_clock_speed_mhz
      warned_unconfigured := false }
  else
    { written_prescaler := written
      reported_clock_mhz := none
      warned_unconfigured := true }

/-- C macro `#define APP_RESULT_SUCCESS 0` -/
def APP_RESULT_SUCCESS : Nat := 0
/-- C macro `#define APP_RESULT_STLINK_NOT_FOUND 2` -/
def APP_RESULT_STLINK_NOT_FOUND : Nat := 2
/-- C macro `#define APP_RESULT_STLINK_MISSING_DEVICE 3` -/
def APP_RESULT_STLINK_MISSING_DEVICE : Nat := 3
/-- C macro `#define APP_RESULT_STLINK_UNSUPPORTED_DEVICE 4` -/
def APP_RESULT_STLINK_UNSUPPORTED_DEVICE : Nat := 4
/-- C macro `#define APP_RESULT_STLINK_UNSUPPORTED_LINK 5` -/
def APP_RESULT_STLINK_UNSUPPORTED_LINK : Nat := 5
/-- C macro `#define APP_RESULT_STLINK_STATE_ERROR 6` -/
def APP_RESULT_STLINK_STATE_ERROR : Nat := 6

/-- Outcomes of the external probe-driver calls made by `main` after option
parsing: whether `StLinkConnect` returned a handle, whether
`stlink->chip_id` differed from `STLINK_CHIPID_UNKNOWN`, whether the
`STLINK_F_HAS_TRACE` and `CHIP_F_HAS_SWO_TRACING` capability flags were set,
and the boolean results of `EnableTrace` and `stlink_run`. -/
structure ProbeEnv where
  connect_ok : Bool
  chip_known : Bool
  link_has_trace : Bool
  chip_has_swo : Bool
  enable_trace_ok : Bool
  run_ok : Bool
deriving DecidableEq

/-- What an execution of `main` did on its way out: the exit code, whether a
probe handle was opened, and whether `stlink_trace_disable` and
`stlink_close` were called before returning. -/
structure MainOutcome where
  exit_code : Nat
  probe_opened : Bool
  trace_disabled : Bool
  probe_closed : Bool
deriving DecidableEq

/-- Lines 490-539 of `main`: the control flow from `StLinkConnect` to process
exit.  The poll loop itself always terminates by cancellation or read error
and falls through to lines 536-537, which are the only calls to
`stlink_trace_disable` and `stlink_close`; every unforced error abort
returns directly. -/
def mainModel (force : Bool) (env : ProbeEnv) : MainOutcome :=
  if !env.connect_ok then
    { exit_code := APP_RESULT_STLINK_NOT_FOUND
      probe_opened := false, trace_disabled := false, probe_closed := false }
  else if !env.chip_known && !force then
    { exit_code := APP_RESULT_STLINK_MISSING_DEVICE
      probe_opened := true, trace_disabled := false, probe_closed := false }
  else if !env.link_has_trace && !force then
    { exit_code := APP_RESULT_STLINK_UNSUPPORTED_LINK
      probe_opened := true, trace_disabled := false, probe_closed := false }
  else if !env.chip_has_swo && !force then
    { exit_code := APP_RESULT_STLINK_UNSUPPORTED_DEVICE
      probe_opened := true, trace_disabled := false, probe_closed := false }
  else if !env.enable_trace_ok && !force then
    { exit_code := APP_RESULT_STLINK_STATE_ERROR
      probe_opened := true, trace_disabled := false, probe_closed := false }
  else if !env.run_ok && !force then
    { exit_code := APP_RESULT_STLINK_STATE_ERROR
      probe_opened := true, trace_disabled := false, probe_closed := false }
  else
    { exit_code := APP_RESULT_SUCCESS
      probe_opened := true, trace_disabled := true, probe_closed := true }

/-! ### Bitset helper lemmas -/

lemma and_one_shiftLeft_beq (x i : Nat) : (x &&& (1 <<< i) == 0) = !x.testBit i := by
  rw [Nat.one_shiftLeft, Nat.and_two_pow]
  cases h : x.testBit i
  · simp
  · simp [Nat.pow_eq_zero]

lemma testBit_or_one_shiftLeft (x c i : Nat) :
    (x ||| (1 <<< c)).testBit i = (x.testBit i || (c == i)) := by
  rw [Nat.one_shiftLeft, Nat.testBit_or, Nat.testBit_two_pow]
  cases h : x.testBit i <;> simp [Bool.beq_eq_decide_eq]

/-! ### Facts about `UpdateTraceIdleRest`

The overflow branch of lines 357-359 is dead: its guard `TRACE_OP_IS_OVERFLOW`
only holds for `c = 0x70`, which already satisfies `TRACE_OP_IS_LOCAL_TIME`
and is consumed by the timestamp branch of line 350. -/

lemma Rest_const (t : st_trace_t) (c : Nat) :
    (UpdateTraceIdleRest t c).1.start_time = t.start_time ∧
    (UpdateTraceIdleRest t c).1.configuration_checked = t.configuration_checked ∧
    (UpdateTraceIdleRest t c).1.count_raw_bytes = t.count_raw_bytes ∧
    (UpdateTraceIdleRest t c).1.count_target_data = t.count_target_data ∧
    (UpdateTraceIdleRest t c).1.count_overflow = t.count_overflow ∧
    (UpdateTraceIdleRest t c).1.unknown_sources = t.unknown_sources := by
  unfold UpdateTraceIdleRest
  split
  · exact ⟨rfl, rfl, rfl, rfl, rfl, rfl⟩
  split
  · exact ⟨rfl, rfl, rfl, rfl, rfl, rfl⟩
  rename_i h1 h2
  have hov : TRACE_OP_IS_OVERFLOW c = false := by
    by_cases hc : c = 0x70
    · subst hc
      exact absurd (by decide) h1
    · simp [TRACE_OP_IS_OVERFLOW, hc]
  simp [hov]

lemma Rest_opcodes (t : st_trace_t) (c : Nat) :
    (UpdateTraceIdleRest t c).1.unknown_opcodes = t.unknown_opcodes ∨
    (UpdateTraceIdleRest t c).1.unknown_opcodes = t.unknown_opcodes ||| (1 <<< c) := by
  unfold UpdateTraceIdleRest
  split
  · exact Or.inl rfl
  split
  · exact Or.inl rfl
  split <;> exact Or.inr rfl

lemma Rest_srcLog (t : st_trace_t) (c : Nat) (a : Nat) :
    sourceLogCount a (UpdateTraceIdleRest t c).2.2 = 0 := by
  unfold UpdateTraceIdleRest
  split
  · rfl
  split
  · rfl
  split <;> split <;> simp [sourceLogCount]

lemma Rest_opLog (t : st_trace_t) (c : Nat) (v : Nat) :
    opcodeLogCount v (UpdateTraceIdleRest t c).2.2
      + (t.unknown_opcodes.testBit v).toNat
      = ((UpdateTraceIdleRest t c).1.unknown_opcodes.testBit v).toNat := by
  unfold UpdateTraceIdleRest
  split
  · simp [opcodeLogCount]
  split
  · simp [opcodeLogCount]
  rename_i h1 h2
  have hov : TRACE_OP_IS_OVERFLOW c = false := by
    by_cases hc : c = 0x70
    · subst hc
      exact absurd (by decide) h1
    · simp [TRACE_OP_IS_OVERFLOW, hc]
  simp only [hov, Bool.false_eq_true, if_false]
  by_cases hb : t.unknown_opcodes.testBit c
  · have hg : (t.unknown_opcodes &&& (1 <<< c) == 0) = false := by
      simp [and_one_shiftLeft_beq, hb]
    by_cases hcv : c = v
    · subst hcv
      simp only [hg, Bool.false_eq_true, if_false, testBit_or_one_shiftLeft]
      simp [opcodeLogCount, hb]
    · simp only [hg, Bool.false_eq_true, if_false, testBit_or_one_shiftLeft]
      simp [opcodeLogCount, Bool.beq_eq_decide_eq, hcv]
  · have hg : (t.unknown_opcodes &&& (1 <<< c) == 0) = true := by
      simp [and_one_shiftLeft_beq, hb]
    by_cases hcv : c = v
    · subst hcv
      simp only [hg, if_true, testBit_or_one_shiftLeft]
      simp [opcodeLogCount, hb]
    · simp only [hg, if_true, testBit_or_one_shiftLeft]
      simp [opcodeLogCount, Bool.beq_eq_decide_eq, hcv]

@[simp] lemma Rest_start_time (t : st_trace_t) (c : Nat) :
    (UpdateTraceIdleRest t c).1.start_time = t.start_time := (Rest_const t c).1

@[simp] lemma Rest_configuration_checked (t : st_trace_t) (c : Nat) :
    (UpdateTraceIdleRest t c).1.configuration_checked = t.configuration_checked :=
  (Rest_const t c).2.1

@[simp] lemma Rest_count_raw_bytes (t : st_trace_t) (c : Nat) :
    (UpdateTraceIdleRest t c).1.count_raw_bytes = t.count_raw_bytes :=
  (Rest_const t c).2.2.1

@[simp] lemma Rest_count_target_data (t : st_trace_t) (c : Nat) :
    (UpdateTraceIdleRest t c).1.count_target_data = t.count_target_data :=
  (Rest_const t c).2.2.2.1

@[simp] lemma Rest_count_overflow (t : st_trace_t) (c : Nat) :
    (UpdateTraceIdleRest t c).1.count_overflow = t.count_overflow :=
  (Rest_const t c).2.2.2.2.1

@[simp] lemma Rest_unknown_sources (t : st_trace_t) (c : Nat) :
    (UpdateTraceIdleRest t c).1.unknown_sources = t.unknown_sources :=
  (Rest_const t c).2.2.2.2.2

/-- Core accounting step shared by the two first-occurrence-only warning
sites: emitting a warning exactly when the bit is clear and then setting the
bit keeps `count + initial-bit = final-bit`. -/
lemma srcLog_pair (x addr size a : Nat) :
    sourceLogCount a
        (if x &&& (1 <<< addr) == 0 then [TraceEvent.wlog_unknown_source addr size]
          else [])
      + (x.testBit a).toNat
      = ((x ||| (1 <<< addr)).testBit a).toNat := by
  by_cases hb : x.testBit a
  · by_cases hav : addr = a
    · subst hav
      simp [and_one_shiftLeft_beq, hb, testBit_or_one_shiftLeft, sourceLogCount]
    · simp only [testBit_or_one_shiftLeft]
      by_cases hg : x.testBit addr <;>
        simp [and_one_shiftLeft_beq, hg, hb, sourceLogCount,
          Bool.beq_eq_decide_eq, hav]
  · by_cases hav : addr = a
    · subst hav
      simp [and_one_shiftLeft_beq, hb, testBit_or_one_shiftLeft, sourceLogCount]
    · simp only [testBit_or_one_shiftLeft]
      by_cases hg : x.testBit addr <;>
        simp [and_one_shiftLeft_beq, hg, hb, sourceLogCount,
          Bool.beq_eq_decide_eq, hav]

/-! ### Facts about `UpdateTraceIdle` -/

lemma Idle_const (t : st_trace_t) (c : Nat) :
    (UpdateTraceIdle t c).1.start_time = t.start_time ∧
    (UpdateTraceIdle t c).1.configuration_checked = t.configuration_checked ∧
    (UpdateTraceIdle t c).1.count_raw_bytes = t.count_raw_bytes ∧
    (UpdateTraceIdle t c).1.count_target_data = t.count_target_data ∧
    (UpdateTraceIdle t c).1.count_overflow = t.count_overflow := by
  dsimp only [UpdateTraceIdle]
  repeat' split
  all_goals first
  | exact ⟨rfl, rfl, rfl, rfl, rfl⟩
  | simp

lemma Idle_opcodes (t : st_trace_t) (c : Nat) :
    (UpdateTraceIdle t c).1.unknown_opcodes = t.unknown_opcodes ∨
    (UpdateTraceIdle t c).1.unknown_opcodes = t.unknown_opcodes ||| (1 <<< c) := by
  dsimp only [UpdateTraceIdle]
  repeat' split
  all_goals
    first
    | exact Or.inl rfl
    | (rcases Rest_opcodes _ c with h | h <;> [exact Or.inl h; exact Or.inr h])

lemma Idle_sources (t : st_trace_t) (c : Nat) :
    (UpdateTraceIdle t c).1.unknown_sources = t.unknown_sources ∨
    (UpdateTraceIdle t c).1.unknown_sources
      = t.unknown_sources ||| (1 <<< TRACE_OP_GET_SW_SOURCE_ADDR c) := by
  dsimp only [UpdateTraceIdle]
  repeat' split
  all_goals simp

@[simp] lemma Idle_start_time (t : st_trace_t) (c : Nat) :
    (UpdateTraceIdle t c).1.start_time = t.start_time := (Idle_const t c).1

@[simp] lemma Idle_configuration_checked (t : st_trace_t) (c : Nat) :
    (UpdateTraceIdle t c).1.configuration_checked = t.configuration_checked :=
  (Idle_const t c).2.1

@[simp] lemma Idle_count_raw_bytes (t : st_trace_t) (c : Nat) :
    (UpdateTraceIdle t c).1.count_raw_bytes = t.count_raw_bytes :=
  (Idle_const t c).2.2.1

@[simp] lemma Idle_count_target_data (t : st_trace_t) (c : Nat) :
    (UpdateTraceIdle t c).1.count_target_data = t.count_target_data :=
  (Idle_const t c).2.2.2.1

@[simp] lemma Idle_count_overflow (t : st_trace_t) (c : Nat) :
    (UpdateTraceIdle t c).1.count_overflow = t.count_overflow :=
  (Idle_const t c).2.2.2.2

@[simp] lemma opcodeLogCount_nil (v : Nat) : opcodeLogCount v [] = 0 := rfl

@[simp] lemma sourceLogCount_nil (a : Nat) : sourceLogCount a [] = 0 := rfl

@[simp] lemma opcodeLogCount_append (v : Nat) (l1 l2 : List TraceEvent) :
    opcodeLogCount v (l1 ++ l2) = opcodeLogCount v l1 + opcodeLogCount v l2 :=
  List.countP_append _ _ _

@[simp] lemma sourceLogCount_append (a : Nat) (l1 l2 : List TraceEvent) :
    sourceLogCount a (l1 ++ l2) = sourceLogCount a l1 + sourceLogCount a l2 :=
  List.countP_append _ _ _

@[simp] lemma opcodeLogCount_source (v addr size : Nat) :
    opcodeLogCount v [TraceEvent.wlog_unknown_source addr size] = 0 := rfl

@[simp] lemma opcodeLogCount_putchar (v c : Nat) :
    opcodeLogCount v [TraceEvent.putchar c] = 0 := rfl

@[simp] lemma sourceLogCount_opcode (a c : Nat) :
    sourceLogCount a [TraceEvent.wlog_unknown_opcode c] = 0 := rfl

@[simp] lemma sourceLogCount_putchar (a c : Nat) :
    sourceLogCount a [TraceEvent.putchar c] = 0 := rfl

@[simp] lemma opcodeLogCount_cons_source (v addr size : Nat) (l : List TraceEvent) :
    opcodeLogCount v (TraceEvent.wlog_unknown_source addr size :: l)
      = opcodeLogCount v l := by
  simp [opcodeLogCount, List.countP_cons]

@[simp] lemma opcodeLogCount_cons_putchar (v c : Nat) (l : List TraceEvent) :
    opcodeLogCount v (TraceEvent.putchar c :: l) = opcodeLogCount v l := by
  simp [opcodeLogCount, List.countP_cons]

@[simp] lemma opcodeLogCount_cons_opcode (v c : Nat) (l : List TraceEvent) :
    opcodeLogCount v (TraceEvent.wlog_unknown_opcode c :: l)
      = opcodeLogCount v l + (c == v).toNat := by
  simp only [opcodeLogCount, List.countP_cons]
  by_cases h : (c == v) = true <;> simp [h]

@[simp] lemma sourceLogCount_cons_opcode (a c : Nat) (l : List TraceEvent) :
    sourceLogCount a (TraceEvent.wlog_unknown_opcode c :: l) = sourceLogCount a l := by
  simp [sourceLogCount, List.countP_cons]

@[simp] lemma sourceLogCount_cons_putchar (a c : Nat) (l : List TraceEvent) :
    sourceLogCount a (TraceEvent.putchar c :: l) = sourceLogCount a l := by
  simp [sourceLogCount, List.countP_cons]

@[simp] lemma sourceLogCount_cons_source (a addr size : Nat) (l : List TraceEvent) :
    sourceLogCount a (TraceEvent.wlog_unknown_source addr size :: l)
      = sourceLogCount a l + (addr == a).toNat := by
  simp only [sourceLogCount, List.countP_cons]
  by_cases h : (addr == a) = true <;> simp [h]

lemma Idle_opLog (t : st_trace_t) (c : Nat) (v : Nat) :
    opcodeLogCount v (UpdateTraceIdle t c).2.2
      + (t.unknown_opcodes.testBit v).toNat
      = ((UpdateTraceIdle t c).1.unknown_opcodes.testBit v).toNat := by
  dsimp only [UpdateTraceIdle]
  repeat' split
  all_goals try exact Rest_opLog t c v
  all_goals try (rw [opcodeLogCount_append]; first
    | simpa using Rest_opLog { t with unknown_sources := t.unknown_sources ||| (1 <<< TRACE_OP_GET_SW_SOURCE_ADDR c) } c v
    | skip)
  all_goals try simpa using Rest_opLog t c v
  all_goals simp

lemma Idle_srcLog (t : st_trace_t) (c : Nat) (a : Nat) :
    sourceLogCount a (UpdateTraceIdle t c).2.2
      + (t.unknown_sources.testBit a).toNat
      = ((UpdateTraceIdle t c).1.unknown_sources.testBit a).toNat := by
  dsimp only [UpdateTraceIdle]
  repeat' split
  all_goals try (rename_i hg; first
    | (have hx := srcLog_pair t.unknown_sources (TRACE_OP_GET_SW_SOURCE_ADDR c) (TRACE_OP_GET_SOURCE_SIZE c) a
       rw [if_pos hg] at hx
       simpa [Rest_srcLog, Rest_unknown_sources] using hx)
    | (have hx := srcLog_pair t.unknown_sources (TRACE_OP_GET_SW_SOURCE_ADDR c) (TRACE_OP_GET_SOURCE_SIZE c) a
       rw [if_neg hg] at hx
       simpa [Rest_srcLog, Rest_unknown_sources] using hx))
  all_goals simp [Rest_srcLog, Rest_unknown_sources]

/-! ### Facts about a single decoder step (`stepTrace`) -/

lemma step_const (s : st_trace_t) (c : Nat) :
    (stepTrace s c).1.start_time = s.start_time ∧
    (stepTrace s c).1.configuration_checked = s.configuration_checked ∧
    (stepTrace s c).1.count_overflow = s.count_overflow ∧
    (stepTrace s c).1.count_raw_bytes = u32 (s.count_raw_bytes + 1) := by
  obtain ⟨t0, cc, st, raw, td, tp, ov, er, uo, us⟩ := s
  cases st <;> simp [stepTrace, UpdateTrace]

lemma step_opcodes (s : st_trace_t) (c : Nat) :
    (stepTrace s c).1.unknown_opcodes = s.unknown_opcodes ∨
    (stepTrace s c).1.unknown_opcodes = s.unknown_opcodes ||| (1 <<< c) := by
  obtain ⟨t0, cc, st, raw, td, tp, ov, er, uo, us⟩ := s
  cases st
  case TRACE_STATE_IDLE =>
    simpa [stepTrace, UpdateTrace] using
      Idle_opcodes ⟨t0, cc, trace_state.TRACE_STATE_IDLE, u32 (raw + 1), td, tp, ov, er, uo, us⟩ c
  all_goals exact Or.inl rfl

lemma step_sources (s : st_trace_t) (c : Nat) :
    (stepTrace s c).1.unknown_sources = s.unknown_sources ∨
    (stepTrace s c).1.unknown_sources
      = s.unknown_sources ||| (1 <<< TRACE_OP_GET_SW_SOURCE_ADDR c) := by
  obtain ⟨t0, cc, st, raw, td, tp, ov, er, uo, us⟩ := s
  cases st
  case TRACE_STATE_IDLE =>
    simpa [stepTrace, UpdateTrace] using
      Idle_sources ⟨t0, cc, trace_state.TRACE_STATE_IDLE, u32 (raw + 1), td, tp, ov, er, uo, us⟩ c
  all_goals exact Or.inl rfl

lemma step_opLog (s : st_trace_t) (c : Nat) (v : Nat) :
    opcodeLogCount v (stepTrace s c).2 + (s.unknown_opcodes.testBit v).toNat
      = ((stepTrace s c).1.unknown_opcodes.testBit v).toNat := by
  obtain ⟨t0, cc, st, raw, td, tp, ov, er, uo, us⟩ := s
  cases st
  case TRACE_STATE_IDLE =>
    simpa [stepTrace, UpdateTrace] using
      Idle_opLog ⟨t0, cc, trace_state.TRACE_STATE_IDLE, u32 (raw + 1), td, tp, ov, er, uo, us⟩ c v
  all_goals simp [stepTrace, UpdateTrace]

lemma step_srcLog (s : st_trace_t) (c : Nat) (a : Nat) :
    sourceLogCount a (stepTrace s c).2 + (s.unknown_sources.testBit a).toNat
      = ((stepTrace s c).1.unknown_sources.testBit a).toNat := by
  obtain ⟨t0, cc, st, raw, td, tp, ov, er, uo, us⟩ := s
  cases st
  case TRACE_STATE_IDLE =>
    simpa [stepTrace, UpdateTrace] using
      Idle_srcLog ⟨t0, cc, trace_state.TRACE_STATE_IDLE, u32 (raw + 1), td, tp, ov, er, uo, us⟩ c a
  all_goals simp [stepTrace, UpdateTrace]

/-! ### Facts about whole byte sequences (`processBytes`) -/

lemma processBytes_const (s : st_trace_t) (bs : List Nat) :
    (processBytes s bs).1.start_time = s.start_time ∧
    (processBytes s bs).1.configuration_checked = s.configuration_checked ∧
    (processBytes s bs).1.count_overflow = s.count_overflow := by
  induction bs generalizing s with
  | nil => exact ⟨rfl, rfl, rfl⟩
  | cons c rest ih =>
    have hs := step_const s c
    have hr := ih (stepTrace s c).1
    simp only [processBytes]
    exact ⟨hr.1.trans hs.1, hr.2.1.trans hs.2.1, hr.2.2.trans hs.2.2.1⟩

lemma processBytes_raw (s : st_trace_t) (bs : List Nat)
    (h : s.count_raw_bytes < 4294967296) :
    (processBytes s bs).1.count_raw_bytes
      = (s.count_raw_bytes + bs.length) % 4294967296 := by
  induction bs generalizing s with
  | nil => simpa [processBytes] using (Nat.mod_eq_of_lt h).symm
  | cons c rest ih =>
    have hs := (step_const s c).2.2.2
    have hlt : (stepTrace s c).1.count_raw_bytes < 4294967296 := by
      rw [hs]; exact Nat.mod_lt _ (by omega)
    have hr := ih (stepTrace s c).1 hlt
    simp only [processBytes]
    rw [hr, hs]
    simp only [u32, List.length_cons, Nat.mod_add_mod]
    omega

lemma processBytes_opLog (s : st_trace_t) (bs : List Nat) (v : Nat) :
    opcodeLogCount v (processBytes s bs).2 + (s.unknown_opcodes.testBit v).toNat
      = ((processBytes s bs).1.unknown_opcodes.testBit v).toNat := by
  induction bs generalizing s with
  | nil => simp [processBytes]
  | cons c rest ih =>
    have h1 := step_opLog s c v
    have h2 := ih (stepTrace s c).1
    simp only [processBytes, opcodeLogCount_append]
    omega

lemma processBytes_srcLog (s : st_trace_t) (bs : List Nat) (a : Nat) :
    sourceLogCount a (processBytes s bs).2 + (s.unknown_sources.testBit a).toNat
      = ((processBytes s bs).1.unknown_sources.testBit a).toNat := by
  induction bs generalizing s with
  | nil => simp [processBytes]
  | cons c rest ih =>
    have h1 := step_srcLog s c a
    have h2 := ih (stepTrace s c).1
    simp only [processBytes, sourceLogCount_append]
    omega

lemma processBytes_opcodes_mono (s : st_trace_t) (bs : List Nat) (i : Nat)
    (h : s.unknown_opcodes.testBit i = true) :
    (processBytes s bs).1.unknown_opcodes.testBit i = true := by
  induction bs generalizing s with
  | nil => exact h
  | cons c rest ih =>
    simp only [processBytes]
    refine ih (stepTrace s c).1 ?_
    rcases step_opcodes s c with he | he <;> rw [he]
    · exact h
    · simp [Nat.testBit_or, h]

lemma processBytes_sources_mono (s : st_trace_t) (bs : List Nat) (i : Nat)
    (h : s.unknown_sources.testBit i = true) :
    (processBytes s bs).1.unknown_sources.testBit i = true := by
  induction bs generalizing s with
  | nil => exact h
  | cons c rest ih =>
    simp only [processBytes]
    refine ih (stepTrace s c).1 ?_
    rcases step_sources s c with he | he <;> rw [he]
    · exact h
    · simp [Nat.testBit_or, h]

/-! ### Facts about the diagnostics heuristic and the poll loop -/

lemma elapsed_eq (now start : Nat) (h1 : start ≤ now) (h2 : now - start < 4294967296) :
    u32ofInt ((now : Int) - (start : Int)) = now - start := by
  unfold u32ofInt
  rw [← Int.ofNat_sub h1, Int.emod_eq_of_lt (by omega) (by exact_mod_cast h2)]
  exact Int.toNat_ofNat _

lemma check_flag_true (t : st_trace_t) (now : Nat)
    (h : t.configuration_checked = true) :
    CheckForConfigurationError t now = (t, false, false) := by
  simp [CheckForConfigurationError, h]

lemma check_early (t : st_trace_t) (now : Nat)
    (hcc : t.configuration_checked = false)
    (h : u32ofInt ((now : Int) - (t.start_time : Int)) < 10) :
    CheckForConfigurationError t now = (t, false, false) := by
  simp [CheckForConfigurationError, hcc, h]

lemma check_fire (t : st_trace_t) (now : Nat)
    (hcc : t.configuration_checked = false)
    (h : ¬ u32ofInt ((now : Int) - (t.start_time : Int)) < 10) :
    (CheckForConfigurationError t now).2.1 = true ∧
    (CheckForConfigurationError t now).1.configuration_checked = true ∧
    (CheckForConfigurationError t now).1.start_time = t.start_time := by
  simp only [CheckForConfigurationError, hcc, h]
  split
  · simp_all
  · split <;> simp

lemma check_reported_checked (t : st_trace_t) (now : Nat)
    (h : (CheckForConfigurationError t now).2.2 = true) :
    (CheckForConfigurationError t now).2.1 = true := by
  by_cases hcc : t.configuration_checked = true
  · rw [check_flag_true t now hcc] at h
    exact absurd h (by simp)
  · have hcc' : t.configuration_checked = false := by simpa using hcc
    by_cases hel : u32ofInt ((now : Int) - (t.start_time : Int)) < 10
    · rw [check_early t now hcc' hel] at h
      exact absurd h (by simp)
    · exact (check_fire t now hcc' hel).1

lemma runSession_flagged (polls : List PollStep) (t : st_trace_t)
    (h : t.configuration_checked = true) :
    ∀ r ∈ (runSession t polls).2, r.checked = false ∧ r.reported = false := by
  induction polls generalizing t with
  | nil => simp [runSession]
  | cons p rest ih =>
    have hcc : (processBytes t p.bytes).1.configuration_checked = true :=
      ((processBytes_const t p.bytes).2.1).trans h
    intro r hr
    rw [runSession] at hr
    simp only [check_flag_true _ _ hcc] at hr
    rcases List.mem_cons.mp hr with hr | hr
    · subst hr
      exact ⟨rfl, rfl⟩
    · exact ih (processBytes t p.bytes).1 hcc r hr

lemma runSession_once (start : Nat) (polls : List PollStep) (t : st_trace_t)
    (hst : t.start_time = start) (hcc : t.configuration_checked = false)
    (hp : ∀ p ∈ polls, start ≤ p.now ∧ p.now - start < 4294967296) :
    ((runSession t polls).2.countP (fun r => r.checked) ≤ 1) ∧
    (∀ r ∈ (runSession t polls).2, r.reported = true → r.checked = true) ∧
    (∀ r ∈ (runSession t polls).2, r.checked = true → 10 ≤ r.now - start) ∧
    ((∃ r ∈ (runSession t polls).2, 10 ≤ r.now - start) →
      (runSession t polls).2.countP (fun r => r.checked) = 1) := by
  induction polls generalizing t with
  | nil => simp [runSession]
  | cons p rest ih =>
    obtain ⟨hple, hplt⟩ := hp p (List.mem_cons_self p rest)
    have h1st : (processBytes t p.bytes).1.start_time = start :=
      ((processBytes_const t p.bytes).1).trans hst
    have h1cc : (processBytes t p.bytes).1.configuration_checked = false :=
      ((processBytes_const t p.bytes).2.1).trans hcc
    have hel : u32ofInt ((p.now : Int) - ((processBytes t p.bytes).1.start_time : Int))
        = p.now - start := by
      rw [h1st]
      exact elapsed_eq p.now start hple hplt
    by_cases hten : p.now - start < 10
    · have hck : CheckForConfigurationError (processBytes t p.bytes).1 p.now
          = ((processBytes t p.bytes).1, false, false) :=
        check_early _ _ h1cc (by rw [hel]; exact hten)
      have hrest := ih (processBytes t p.bytes).1 h1st h1cc
        (fun q hq => hp q (List.mem_cons_of_mem p hq))
      rw [runSession]
      simp only [hck]
      refine ⟨?_, ?_, ?_, ?_⟩
      · simpa [List.countP_cons] using hrest.1
      · intro r hr hrep
        rcases List.mem_cons.mp hr with hr | hr
        · subst hr; simp at hrep
        · exact hrest.2.1 r hr hrep
      · intro r hr hchk
        rcases List.mem_cons.mp hr with hr | hr
        · subst hr; simp at hchk
        · exact hrest.2.2.1 r hr hchk
      · intro hex
        rcases hex with ⟨r, hr, hrn⟩
        rcases List.mem_cons.mp hr with hr | hr
        · subst hr; simp at hrn; omega
        · have := hrest.2.2.2 ⟨r, hr, hrn⟩
          simpa [List.countP_cons] using this
    · have hfire := check_fire (processBytes t p.bytes).1 p.now h1cc
        (by rw [hel]; omega)
      have hflag := runSession_flagged rest
        (CheckForConfigurationError (processBytes t p.bytes).1 p.now).1 hfire.2.1
      rw [runSession]
      have hcount : (runSession
          (CheckForConfigurationError (processBytes t p.bytes).1 p.now).1 rest).2.countP
            (fun r => r.checked) = 0 := by
        rw [List.countP_eq_zero]
        intro r hr
        simp [(hflag r hr).1]
      refine ⟨?_, ?_, ?_, ?_⟩
      · simp [List.countP_cons, hcount, hfire.1]
      · intro r hr hrep
        rcases List.mem_cons.mp hr with hr | hr
        · subst hr; simp [hfire.1]
        · exact absurd hrep (by simp [(hflag r hr).2])
      · intro r hr hchk
        rcases List.mem_cons.mp hr with hr | hr
        · subst hr; simpa using (by omega : 10 ≤ p.now - start)
        · exact absurd hchk (by simp [(hflag r hr).1])
      · intro _
        simp [List.countP_cons, hcount, hfire.1]

/-! ### Length of the serial-number decoding loop -/

lemma ConvertSerialLoop_length (maxSize : Nat) :
    ∀ (text acc : List Nat),
      (ConvertSerialLoop maxSize text acc).length
        = acc.length + min ((text.length + 1) / 2) (maxSize - acc.length)
  | [], acc => by simp [ConvertSerialLoop]
  | [c], acc => by
    by_cases h : acc.length < maxSize <;> simp [ConvertSerialLoop, h] <;> omega
  | c1 :: c2 :: rest, acc => by
    by_cases h : acc.length < maxSize
    · have ih := ConvertSerialLoop_length maxSize rest
        (acc ++ [u32ofInt (strtol16 [c1, c2] % 256)])
      simp only [ConvertSerialLoop, h, if_true]
      rw [ih]
      simp
      omega
    · simp [ConvertSerialLoop, h]
      omega

/-! ### Single-step characterizations used by the packet-level claims -/

lemma stepTrace_idle_target (s : st_trace_t)
    (hs : s.state = trace_state.TRACE_STATE_IDLE) :
    stepTrace s 0x01
      = ({ s with
            state := trace_state.TRACE_STATE_TARGET_SOURCE
            count_raw_bytes := u32 (s.count_raw_bytes + 1) }, []) := by
  obtain ⟨t0, cc, st, raw, td, tp, ov, er, uo, us⟩ := s
  cases hs
  rfl

lemma stepTrace_target (s : st_trace_t) (b : Nat)
    (hs : s.state = trace_state.TRACE_STATE_TARGET_SOURCE) :
    stepTrace s b
      = ({ s with
            state := trace_state.TRACE_STATE_IDLE
            count_raw_bytes := u32 (s.count_raw_bytes + 1)
            count_target_data := u32 (s.count_target_data + 1) },
          [TraceEvent.putchar b]) := by
  obtain ⟨t0, cc, st, raw, td, tp, ov, er, uo, us⟩ := s
  cases hs
  rfl

lemma stepTrace_skip2 (s : st_trace_t) (b : Nat)
    (hs : s.state = trace_state.TRACE_STATE_SKIP_2) :
    stepTrace s b
      = ({ s with
            state := trace_state.TRACE_STATE_SKIP_1
            count_raw_bytes := u32 (s.count_raw_bytes + 1) }, []) := by
  obtain ⟨t0, cc, st, raw, td, tp, ov, er, uo, us⟩ := s
  cases hs
  rfl

lemma stepTrace_skip1 (s : st_trace_t) (b : Nat)
    (hs : s.state = trace_state.TRACE_STATE_SKIP_1) :
    stepTrace s b
      = ({ s with
            state := trace_state.TRACE_STATE_IDLE
            count_raw_bytes := u32 (s.count_raw_bytes + 1) }, []) := by
  obtain ⟨t0, cc, st, raw, td, tp, ov, er, uo, us⟩ := s
  cases hs
  rfl

lemma stepTrace_idle_0x70 (s : st_trace_t)
    (hs : s.state = trace_state.TRACE_STATE_IDLE) :
    stepTrace s 0x70
      = ({ s with
            state := trace_state.TRACE_STATE_IDLE
            count_raw_bytes := u32 (s.count_raw_bytes + 1)
            count_time_packets := u32 (s.count_time_packets + 1) }, []) := by
  obtain ⟨t0, cc, st, raw, td, tp, ov, er, uo, us⟩ := s
  cases hs
  rfl

lemma stepTrace_idle_sw_size2 (s : st_trace_t) (c : Nat)
    (hs : s.state = trace_state.TRACE_STATE_IDLE)
    (hsw : TRACE_OP_IS_SW_SOURCE c = true)
    (hsz : TRACE_OP_GET_SOURCE_SIZE c = 2) :
    stepTrace s c
      = ({ s with
            state := trace_state.TRACE_STATE_SKIP_2
            count_raw_bytes := u32 (s.count_raw_bytes + 1)
            unknown_sources := s.unknown_sources ||| (1 <<< TRACE_OP_GET_SW_SOURCE_ADDR c) },
          if s.unknown_sources &&& (1 <<< TRACE_OP_GET_SW_SOURCE_ADDR c) == 0 then
            [TraceEvent.wlog_unknown_source (TRACE_OP_GET_SW_SOURCE_ADDR c)
              (TRACE_OP_GET_SOURCE_SIZE c)]
          else []) := by
  have h1 : TRACE_OP_IS_TARGET_SOURCE c = false := by
    unfold TRACE_OP_IS_TARGET_SOURCE
    by_cases hc : c = 1
    · subst hc
      exact absurd hsz (by decide)
    · simp [hc]
  have h2 : TRACE_OP_IS_SOURCE c = true := by
    have h := hsw
    simp only [TRACE_OP_IS_SW_SOURCE, Bool.and_eq_true] at h
    simpa [TRACE_OP_IS_SOURCE] using h.1
  obtain ⟨t0, cc, st, raw, td, tp, ov, er, uo, us⟩ := s
  cases hs
  simp only [stepTrace, UpdateTrace, UpdateTraceIdle, h1, h2, hsw, hsz,
    Bool.false_eq_true, if_false, if_true]
  simp

lemma outputBytes_map_putchar (l : List Nat) :
    outputBytes (l.map TraceEvent.putchar) = l := by
  induction l with
  | nil => rfl
  | cons b rest ih => simpa [outputBytes] using ih

lemma outputBytes_append (l1 l2 : List TraceEvent) :
    outputBytes (l1 ++ l2) = outputBytes l1 ++ outputBytes l2 :=
  List.filterMap_append _ _ _

/-- The run of a sequence of well-formed target-output packets: each packet is
the header byte `0x01` followed by one payload byte. -/
lemma processBytes_targetPackets (payloads : List Nat) (s : st_trace_t)
    (hs : s.state = trace_state.TRACE_STATE_IDLE)
    (hc : s.count_target_data < 4294967296) :
    (processBytes s (encodeTargetPackets payloads)).2
        = payloads.map TraceEvent.putchar ∧
    (processBytes s (encodeTargetPackets payloads)).1.count_target_data
        = (s.count_target_data + payloads.length) % 4294967296 ∧
    (processBytes s (encodeTargetPackets payloads)).1.state
        = trace_state.TRACE_STATE_IDLE := by
  induction payloads generalizing s with
  | nil =>
    refine ⟨rfl, ?_, hs⟩
    simpa [processBytes] using (Nat.mod_eq_of_lt hc).symm
  | cons b rest ih =>
    have e1 := stepTrace_idle_target s hs
    have e2 := stepTrace_target ({ s with
        state := trace_state.TRACE_STATE_TARGET_SOURCE
        count_raw_bytes := u32 (s.count_raw_bytes + 1) }) b rfl
    have hc2 : u32 (s.count_target_data + 1) < 4294967296 :=
      Nat.mod_lt _ (by omega)
    have ihs := ih ({ s with
        state := trace_state.TRACE_STATE_IDLE
        count_raw_bytes := u32 (u32 (s.count_raw_bytes + 1) + 1)
        count_target_data := u32 (s.count_target_data + 1) }) rfl hc2
    simp only [encodeTargetPackets, processBytes, e1, e2] at ihs ⊢
    refine ⟨?_, ?_, ihs.2.2⟩
    · simpa [List.map_cons] using ihs.1
    · rw [ihs.2.1]
      simp only [u32, Nat.mod_add_mod, List.length_cons]
      omega

/-! ## Claim theorems -/

/-- C1 counterexample: decoding the single byte `0x70` from the initial Idle
state leaves the overflow counter and the decode-error counter at 0 and does
not record `0x70` in the unknown-opcode seen set; it is counted as a
timestamp packet instead, because `TRACE_OP_IS_LOCAL_TIME 0x70` holds and
line 350 is tested before the overflow branch of line 357.  This falsifies
the claimed double classification at the concrete input `0x70`. -/
theorem C1_counterexample_0x70_not_double_counted :
    (stepTrace (initTrace 0) 0x70).1.count_overflow = 0 ∧
    (stepTrace (initTrace 0) 0x70).1.count_error = 0 ∧
    ((stepTrace (initTrace 0) 0x70).1.unknown_opcodes).testBit 0x70 = false ∧
    (stepTrace (initTrace 0) 0x70).1.count_time_packets = 1 := by
  decide

/-- C1 (amended): when the decoder in Idle state receives the byte `0x70`, it
increments the timestamp-packet counter by one and leaves the overflow
counter, the decode-error counter and the unknown-opcode seen set unchanged,
staying in Idle with no warning emitted: the overflow branch is shadowed by
the local-timestamp classifier. -/
theorem C1_amended_idle_0x70_counts_timestamp (s : st_trace_t)
    (hs : s.state = trace_state.TRACE_STATE_IDLE) :
    (stepTrace s 0x70).1.count_time_packets
        = (s.count_time_packets + 1) % 4294967296 ∧
    (stepTrace s 0x70).1.count_overflow = s.count_overflow ∧
    (stepTrace s 0x70).1.count_error = s.count_error ∧
    (stepTrace s 0x70).1.unknown_opcodes = s.unknown_opcodes ∧
    (stepTrace s 0x70).1.state = trace_state.TRACE_STATE_IDLE ∧
    (stepTrace s 0x70).2 = [] := by
  rw [stepTrace_idle_0x70 s hs]
  exact ⟨rfl, rfl, rfl, rfl, rfl, rfl⟩

/-- Witness for the amended C1 theorem at the initial session state. -/
theorem C1_amended_witness :
    (stepTrace (initTrace 0) 0x70).1.count_time_packets
        = ((initTrace 0).count_time_packets + 1) % 4294967296 ∧
    (stepTrace (initTrace 0) 0x70).1.count_overflow = (initTrace 0).count_overflow ∧
    (stepTrace (initTrace 0) 0x70).1.count_error = (initTrace 0).count_error ∧
    (stepTrace (initTrace 0) 0x70).1.unknown_opcodes = (initTrace 0).unknown_opcodes ∧
    (stepTrace (initTrace 0) 0x70).1.state = trace_state.TRACE_STATE_IDLE ∧
    (stepTrace (initTrace 0) 0x70).2 = [] :=
  C1_amended_idle_0x70_counts_timestamp (initTrace 0) rfl

/-- C4: the overflow counter stays 0 on every input fed from the initial
state: the only byte satisfying `TRACE_OP_IS_OVERFLOW` is `0x70`, which also
satisfies `TRACE_OP_IS_LOCAL_TIME`, tested first, so the overflow increment
is unreachable and `0x70` is counted as a timestamp packet instead. -/
theorem C4_overflow_branch_unreachable :
    (∀ t bs, (processBytes (initTrace t) bs).1.count_overflow = 0) ∧
    TRACE_OP_IS_LOCAL_TIME 0x70 = true ∧
    TRACE_OP_IS_OVERFLOW 0x70 = true ∧
    (∀ t, (stepTrace (initTrace t) 0x70).1.count_time_packets = 1) := by
  refine ⟨?_, by decide, by decide, ?_⟩
  · intro t bs
    exact (processBytes_const (initTrace t) bs).2.2
  · intro t
    rw [stepTrace_idle_0x70 (initTrace t) rfl]
    rfl

/-- C2 counterexample: the header byte `0x09` is, by the code's own macros,
the software-source header with address 1 and size code 1, yet feeding the
packet `0x09 0x41` from the initial Idle state emits nothing on the output
stream and leaves the target-data counter at 0 (the byte is skipped and the
address is merely recorded as an unsupported source).  The designated
target-output header is `0x01`, whose software-source address is 0, not 1. -/
theorem C2_counterexample_addr1_packet_skipped :
    TRACE_OP_IS_SW_SOURCE 0x09 = true ∧
    TRACE_OP_GET_SW_SOURCE_ADDR 0x09 = 1 ∧
    TRACE_OP_GET_SOURCE_SIZE 0x09 = 1 ∧
    (processBytes (initTrace 0) [0x09, 0x41]).1.count_target_data = 0 ∧
    outputBytes (processBytes (initTrace 0) [0x09, 0x41]).2 = [] ∧
    TRACE_OP_GET_SW_SOURCE_ADDR 0x01 = 0 := by
  decide

/-- C2 (amended): for every well-formed target-output packet — header byte
`0x01` (the `TRACE_OP_IS_TARGET_SOURCE` byte: software source, address 0,
size code 1) followed by one payload byte — fed to the decoder in Idle
state, the decoder emits each payload byte verbatim on the primary output
stream and increments the target-data counter by exactly one per packet; a
sequence of such packets reproduces the payload bytes in order. -/
theorem C2_amended_target_packets_reproduced (s : st_trace_t)
    (payloads : List Nat)
    (hs : s.state = trace_state.TRACE_STATE_IDLE)
    (hc : s.count_target_data < 4294967296) :
    (processBytes s (encodeTargetPackets payloads)).2
        = payloads.map TraceEvent.putchar ∧
    outputBytes (processBytes s (encodeTargetPackets payloads)).2 = payloads ∧
    (processBytes s (encodeTargetPackets payloads)).1.count_target_data
        = (s.count_target_data + payloads.length) % 4294967296 ∧
    (processBytes s (encodeTargetPackets payloads)).1.state
        = trace_state.TRACE_STATE_IDLE := by
  obtain ⟨h1, h2, h3⟩ := processBytes_targetPackets payloads s hs hc
  exact ⟨h1, by rw [h1]; exact outputBytes_map_putchar payloads, h2, h3⟩

/-- Witness for the amended C2 theorem: two packets `01 48` and `01 0A`. -/
theorem C2_amended_witness :
    outputBytes (processBytes (initTrace 0) (encodeTargetPackets [0x48, 0x0A])).2
        = [0x48, 0x0A] ∧
    (processBytes (initTrace 0) (encodeTargetPackets [0x48, 0x0A])).1.count_target_data
        = 2 :=
  ⟨(C2_amended_target_packets_reproduced (initTrace 0) [0x48, 0x0A] rfl (by decide)).2.1,
   (C2_amended_target_packets_reproduced (initTrace 0) [0x48, 0x0A] rfl (by decide)).2.2.1⟩

/-- C3 counterexample: with `force` unset, an opened probe whose chip id is
unknown (`STLINK_CHIPID_UNKNOWN`) makes `main` return
`APP_RESULT_STLINK_MISSING_DEVICE` directly from line 501, without reaching
lines 536-537, so neither `stlink_trace_disable` nor `stlink_close` runs. -/
theorem C3_counterexample_missing_device_no_teardown :
    (mainModel false ⟨true, false, true, true, true, true⟩).probe_opened = true ∧
    (mainModel false ⟨true, false, true, true, true, true⟩).trace_disabled = false ∧
    (mainModel false ⟨true, false, true, true, true, true⟩).probe_closed = false ∧
    (mainModel false ⟨true, false, true, true, true, true⟩).exit_code
        = APP_RESULT_STLINK_MISSING_DEVICE := by
  decide

/-- C3 (amended): after a probe handle is opened, trace capture is disabled
and the handle released exactly on the normal exit path — when every startup
check passes (or `force` is set) and the poll loop ends; the unforced error
aborts for missing device, unsupported link, unsupported device,
trace-enable failure and run failure return without performing teardown. -/
theorem C3_amended_teardown_only_on_normal_exit (force : Bool) (env : ProbeEnv) :
    (mainModel force env).probe_opened = env.connect_ok ∧
    (mainModel force env).trace_disabled
        = (env.connect_ok && (force || (env.chip_known && env.link_has_trace
            && env.chip_has_swo && env.enable_trace_ok && env.run_ok))) ∧
    (mainModel force env).probe_closed = (mainModel force env).trace_disabled := by
  obtain ⟨a, b, c, d, e, f⟩ := env
  cases force <;> cases a <;> cases b <;> cases c <;> cases d <;> cases e <;>
    cases f <;> decide

/-- C5: over any sequence of poll-loop iterations whose wall-clock times are
sane (at or after the session start and within the `uint32_t` range of it),
the diagnostics heuristic runs its counter checks at most once; a report
implies the check ran; the check never runs before 10 elapsed seconds; and
it runs exactly once as soon as any iteration reaches 10 elapsed seconds,
whether or not misconfiguration is flagged. -/
theorem C5_diagnostics_once_after_ten_seconds (start : Nat) (polls : List PollStep)
    (hp : ∀ p ∈ polls, start ≤ p.now ∧ p.now - start < 4294967296) :
    ((runSession (initTrace start) polls).2.countP (fun r => r.checked) ≤ 1) ∧
    (∀ r ∈ (runSession (initTrace start) polls).2,
      r.reported = true → r.checked = true) ∧
    (∀ r ∈ (runSession (initTrace start) polls).2,
      r.checked = true → 10 ≤ r.now - start) ∧
    ((∃ r ∈ (runSession (initTrace start) polls).2, 10 ≤ r.now - start) →
      (runSession (initTrace start) polls).2.countP (fun r => r.checked) = 1) :=
  runSession_once start polls (initTrace start) rfl rfl hp

/-- Witness for C5: three empty polls at 5, 12 and 13 seconds. -/
theorem C5_witness :
    ((runSession (initTrace 0) [⟨5, []⟩, ⟨12, []⟩, ⟨13, []⟩]).2.countP
        (fun r => r.checked) ≤ 1) ∧
    (∀ r ∈ (runSession (initTrace 0) [⟨5, []⟩, ⟨12, []⟩, ⟨13, []⟩]).2,
      r.reported = true → r.checked = true) ∧
    (∀ r ∈ (runSession (initTrace 0) [⟨5, []⟩, ⟨12, []⟩, ⟨13, []⟩]).2,
      r.checked = true → 10 ≤ r.now - 0) ∧
    ((∃ r ∈ (runSession (initTrace 0) [⟨5, []⟩, ⟨12, []⟩, ⟨13, []⟩]).2,
        10 ≤ r.now - 0) →
      (runSession (initTrace 0) [⟨5, []⟩, ⟨12, []⟩, ⟨13, []⟩]).2.countP
        (fun r => r.checked) = 1) :=
  C5_diagnostics_once_after_ten_seconds 0 [⟨5, []⟩, ⟨12, []⟩, ⟨13, []⟩]
    (by
      intro p hp
      simp only [List.mem_cons, List.not_mem_nil, or_false] at hp
      rcases hp with rfl | rfl | rfl <;> exact ⟨by decide, by decide⟩)

/-- C6: decoding is total — every byte in every state yields exactly one next
configuration — and the raw-byte counter increases by exactly the number of
bytes fed (as a 32-bit counter; exactly, for fewer than `2^32` bytes). -/
theorem C6_total_step_and_raw_count :
    (∀ s c, ∃! r, stepTrace s c = r) ∧
    (∀ s bs, s.count_raw_bytes < 4294967296 →
      (processBytes s bs).1.count_raw_bytes
        = (s.count_raw_bytes + bs.length) % 4294967296) ∧
    (∀ t bs, (processBytes (initTrace t) bs).1.count_raw_bytes
        = bs.length % 4294967296) ∧
    (∀ t bs, bs.length < 4294967296 →
      (processBytes (initTrace t) bs).1.count_raw_bytes = bs.length) := by
  have hinit : ∀ t bs, (processBytes (initTrace t) bs).1.count_raw_bytes
      = bs.length % 4294967296 := by
    intro t bs
    have h := processBytes_raw (initTrace t) bs
      (by rw [show (initTrace t).count_raw_bytes = 0 from rfl]; omega)
    simpa [initTrace] using h
  refine ⟨fun s c => ⟨stepTrace s c, rfl, fun y hy => hy.symm⟩,
    fun s bs h => processBytes_raw s bs h, hinit, ?_⟩
  intro t bs h
  rw [hinit t bs]
  exact Nat.mod_eq_of_lt h

/-- Witness for C6 at a concrete two-byte input. -/
theorem C6_witness :
    (processBytes (initTrace 0) [0x10, 0x20]).1.count_raw_bytes = 2 :=
  C6_total_step_and_raw_count.2.2.2 0 [0x10, 0x20] (by decide)

/-- C7: the two "seen" bitsets are monotone — no decoder step ever clears a
set bit — and, from the initial state, the number of unknown-opcode warnings
emitted for a value (resp. unsupported-source warnings for an address) over
any byte sequence equals 1 exactly when that value (address) is in the final
seen set, hence each is logged exactly once per session no matter how often
it recurs. -/
theorem C7_seen_sets_monotone_log_once :
    (∀ s c i, s.unknown_opcodes.testBit i = true →
      (stepTrace s c).1.unknown_opcodes.testBit i = true) ∧
    (∀ s c i, s.unknown_sources.testBit i = true →
      (stepTrace s c).1.unknown_sources.testBit i = true) ∧
    (∀ t bs v, opcodeLogCount v (processBytes (initTrace t) bs).2
        = ((processBytes (initTrace t) bs).1.unknown_opcodes.testBit v).toNat) ∧
    (∀ t bs a, sourceLogCount a (processBytes (initTrace t) bs).2
        = ((processBytes (initTrace t) bs).1.unknown_sources.testBit a).toNat) := by
  refine ⟨?_, ?_, ?_, ?_⟩
  · intro s c i h
    rcases step_opcodes s c with he | he <;> rw [he]
    · exact h
    · simp [Nat.testBit_or, h]
  · intro s c i h
    rcases step_sources s c with he | he <;> rw [he]
    · exact h
    · simp [Nat.testBit_or, h]
  · intro t bs v
    have h := processBytes_opLog (initTrace t) bs v
    simpa [initTrace] using h
  · intro t bs a
    have h := processBytes_srcLog (initTrace t) bs a
    simpa [initTrace] using h

/-- Witness for C7: a step from a state with opcode bit 0x70 (resp. source
bit 3) already set keeps the bit set. -/
theorem C7_witness :
    (stepTrace { initTrace 0 with unknown_opcodes := 1 <<< 112 } 0x00).1.unknown_opcodes.testBit 112 = true ∧
    (stepTrace { initTrace 0 with unknown_sources := 1 <<< 3 } 0x00).1.unknown_sources.testBit 3 = true :=
  ⟨C7_seen_sets_monotone_log_once.1 { initTrace 0 with unknown_opcodes := 1 <<< 112 }
      0x00 112 (by decide),
   C7_seen_sets_monotone_log_once.2.1 { initTrace 0 with unknown_sources := 1 <<< 3 }
      0x00 3 (by decide)⟩

/-- C8: serial-number hex-pair decoding is total on arbitrary text, writes
exactly `min(ceil(strlen/2), maxSize)` bytes — so it never exceeds the
declared destination capacity, consumes an odd trailing character as a final
one-character pair, and stops once the capacity is reached. -/
theorem C8_serial_decoding_bounded (maxSize : Nat) (text : List Nat) :
    (ConvertSerialNumberTextToBinary maxSize text).length
        = min ((text.length + 1) / 2) maxSize ∧
    (ConvertSerialNumberTextToBinary maxSize text).length ≤ maxSize := by
  have h := ConvertSerialLoop_length maxSize text []
  unfold ConvertSerialNumberTextToBinary
  have h' : (ConvertSerialLoop maxSize text []).length
      = min ((text.length + 1) / 2) maxSize := by simpa using h
  exact ⟨h', by rw [h']; omega⟩

/-- C9: a software-source header byte with size code 2 (necessarily distinct
from the target-output encoding `0x01`, whose size code is 1) received in
Idle state consumes and discards exactly the 2 following bytes via
`TRACE_STATE_SKIP_2` then `TRACE_STATE_SKIP_1`, returns to Idle, emits
nothing on the output stream, and changes no session field except the
raw-byte counter (which grows by 3 for the 3 bytes) and the
unknown-source seen set, which gains the header's address bit. -/
theorem C9_sw_source_size2_skips_two_bytes (s : st_trace_t) (c b1 b2 : Nat)
    (hs : s.state = trace_state.TRACE_STATE_IDLE)
    (hsw : TRACE_OP_IS_SW_SOURCE c = true)
    (hsz : TRACE_OP_GET_SOURCE_SIZE c = 2) :
    (processBytes s [c, b1, b2]).1 = { s with
        state := trace_state.TRACE_STATE_IDLE
        count_raw_bytes := (s.count_raw_bytes + 3) % 4294967296
        unknown_sources := s.unknown_sources
          ||| (1 <<< TRACE_OP_GET_SW_SOURCE_ADDR c) } ∧
    outputBytes (processBytes s [c, b1, b2]).2 = [] := by
  have e1 := stepTrace_idle_sw_size2 s c hs hsw hsz
  have e2 := stepTrace_skip2 ({ s with
      state := trace_state.TRACE_STATE_SKIP_2
      count_raw_bytes := u32 (s.count_raw_bytes + 1)
      unknown_sources := s.unknown_sources
        ||| (1 <<< TRACE_OP_GET_SW_SOURCE_ADDR c) }) b1 rfl
  have e3 := stepTrace_skip1 ({ s with
      state := trace_state.TRACE_STATE_SKIP_1
      count_raw_bytes := u32 (u32 (s.count_raw_bytes + 1) + 1)
      unknown_sources := s.unknown_sources
        ||| (1 <<< TRACE_OP_GET_SW_SOURCE_ADDR c) }) b2 rfl
  simp only [processBytes, e1, e2, e3]
  constructor
  · simp only [st_trace_t.mk.injEq, u32, Nat.mod_add_mod]
  · split <;> simp [outputBytes]

/-- Witness for C9 at the concrete header `0x0A` (address 1, size 2). -/
theorem C9_witness :
    (processBytes (initTrace 0) [0x0A, 0xAA, 0xBB]).1 = { initTrace 0 with
        state := trace_state.TRACE_STATE_IDLE
        count_raw_bytes := ((initTrace 0).count_raw_bytes + 3) % 4294967296
        unknown_sources := (initTrace 0).unknown_sources
          ||| (1 <<< TRACE_OP_GET_SW_SOURCE_ADDR 0x0A) } ∧
    outputBytes (processBytes (initTrace 0) [0x0A, 0xAA, 0xBB]).2 = [] :=
  C9_sw_source_size2_skips_two_bytes (initTrace 0) 0x0A 0xAA 0xBB rfl
    (by decide) (by decide)

/-- C10: during trace enablement, when a nonzero core clock in MHz is given
(and the arithmetic stays in range) the prescaler written to `TPI_ACPR` is
exactly `core_clock_mhz*1000000/trace_frequency - 1`; with no clock given
nothing is written; a nonzero read-back prescaler is reported as the implied
system clock `(prescaler+1)*trace_frequency` rounded to the nearest MHz; a
zero read-back triggers the unconfigured-clock warning instead.
`STLINK_TRACE_FREQUENCY` and the `TPI_ACPR` read-back come from outside this
repository and are parameters. -/
theorem C10_prescaler_formula
    (core_frequency_mhz trace_frequency acpr_readback : Nat) :
    (core_frequency_mhz ≠ 0 → 0 < trace_frequency →
      trace_frequency ≤ core_frequency_mhz * 1000000 →
      core_frequency_mhz * 1000000 / trace_frequency - 1 < 4294967296 →
      (EnableTraceClock core_frequency_mhz trace_frequency
          acpr_readback).written_prescaler
        = some (core_frequency_mhz * 1000000 / trace_frequency - 1)) ∧
    (core_frequency_mhz = 0 →
      (EnableTraceClock core_frequency_mhz trace_frequency
          acpr_readback).written_prescaler = none) ∧
    (acpr_readback ≠ 0 →
      (acpr_readback + 1) * trace_frequency + 500000 < 4294967296 →
      (EnableTraceClock core_frequency_mhz trace_frequency
          acpr_readback).reported_clock_mhz
          = some (((acpr_readback + 1) * trace_frequency + 500000) / 1000000) ∧
      (EnableTraceClock core_frequency_mhz trace_frequency
          acpr_readback).warned_unconfigured = false) ∧
    (acpr_readback = 0 →
      (EnableTraceClock core_frequency_mhz trace_frequency
          acpr_readback).reported_clock_mhz = none ∧
      (EnableTraceClock core_frequency_mhz trace_frequency
          acpr_readback).warned_unconfigured = true) := by
  refine ⟨?_, ?_, ?_, ?_⟩
  · intro h0 hf hle hlt
    have hq1 : 1 ≤ core_frequency_mhz * 1000000 / trace_frequency :=
      (Nat.one_le_div_iff hf).mpr hle
    have hcast : (core_frequency_mhz : Int) * 1000000 / (trace_frequency : Int) - 1
        = ((core_frequency_mhz * 1000000 / trace_frequency - 1 : Nat) : Int) := by
      rw [Int.ofNat_sub hq1, Int.natCast_div]
      push_cast
      ring
    have h0' : (core_frequency_mhz != 0) = true := by simpa using h0
    simp only [EnableTraceClock, h0', if_true, u32ofInt]
    have hmod : (((core_frequency_mhz * 1000000 / trace_frequency - 1 : Nat) : Int)
        % 4294967296) = ((core_frequency_mhz * 1000000 / trace_frequency - 1 : Nat) : Int) :=
      Int.emod_eq_of_lt (Int.ofNat_nonneg _) (by exact_mod_cast hlt)
    split <;> simp [hcast, hmod]
  · intro h0
    subst h0
    simp only [EnableTraceClock]
    split <;> rfl
  · intro hrb hbound
    have hrb' : (acpr_readback != 0) = true := by simpa using hrb
    have h1 : (acpr_readback + 1) * trace_frequency < 4294967296 := by omega
    simp [EnableTraceClock, hrb', u32, Nat.mod_eq_of_lt h1, Nat.mod_eq_of_lt hbound]
  · intro h0
    subst h0
    exact ⟨rfl, rfl⟩

/-- Witness for C10: a 72 MHz core with a 2 MHz trace clock and a read-back
prescaler of 35. -/
theorem C10_witness :
    (EnableTraceClock 72 2000000 35).written_prescaler
        = some (72 * 1000000 / 2000000 - 1) ∧
    (EnableTraceClock 72 2000000 35).reported_clock_mhz
        = some (((35 + 1) * 2000000 + 500000) / 1000000) ∧
    (EnableTraceClock 72 2000000 35).warned_unconfigured = false :=
  ⟨(C10_prescaler_formula 72 2000000 35).1 (by decide) (by decide) (by decide)
      (by decide),
   ((C10_prescaler_formula 72 2000000 35).2.2.1 (by decide) (by decide)).1,
   ((C10_prescaler_formula 72 2000000 35).2.2.1 (by decide) (by decide)).2⟩
